import Mathlib

/-!
Shallow embedding of the scoring / threshold-evaluation / driver-attribution /
trend-baseline core of `scripts/review-session.py`.

Modelling conventions:
* Python `float` values are modelled as exact rationals (`ℚ`); `int` values as
  `ℕ`/`ℤ`.  Python's `round(x, n)` (round-half-even) is modelled by `pyRound`.
* A Python dict field that may be missing is modelled as an `Option`; reading it
  with `dict.get(key, default)` becomes `Option.getD`.
-/

namespace ReviewSession

/-- Round-half-even (banker's rounding) to the nearest integer, the rounding
used by Python's built-in `round`. -/
def rne (x : ℚ) : ℤ :=
  if x - ⌊x⌋ < 1/2 then ⌊x⌋
  else if 1/2 < x - ⌊x⌋ then ⌊x⌋ + 1
  else if Even ⌊x⌋ then ⌊x⌋ else ⌊x⌋ + 1

/-- Python's `round(x, n)`: round-half-even to `n` decimal digits. -/
def pyRound (x : ℚ) (n : ℕ) : ℚ := (rne (x * 10 ^ n) : ℚ) / 10 ^ n

/-- `clamp` from review-session.py (always called with lo = 0, hi = 100). -/
def clamp (v lo hi : ℚ) : ℚ := max lo (min hi v)

theorem rne_intCast (m : ℤ) : rne (m : ℚ) = m := by
  unfold rne
  simp

theorem rne_le_add_one (x : ℚ) : rne x ≤ ⌊x⌋ + 1 := by
  unfold rne
  split_ifs <;> omega

theorem le_rne (x : ℚ) : ⌊x⌋ ≤ rne x := by
  unfold rne
  split_ifs <;> omega

theorem rne_mono {x y : ℚ} (h : x ≤ y) : rne x ≤ rne y := by
  have hf : ⌊x⌋ ≤ ⌊y⌋ := Int.floor_le_floor h
  rcases eq_or_lt_of_le hf with he | hl
  · have hx : x - ⌊x⌋ ≤ y - ⌊y⌋ := by
      rw [← he]
      have := Int.floor_le x
      linarith
    unfold rne
    rw [← he]
    split_ifs with h1 h2 h3 h4 h5 h6 h7 h8 h9 h10 h11 <;>
      first
        | omega
        | linarith
  · calc rne x ≤ ⌊x⌋ + 1 := rne_le_add_one x
      _ ≤ ⌊y⌋ := by omega
      _ ≤ rne y := le_rne y

theorem rne_nonneg {x : ℚ} (h : 0 ≤ x) : 0 ≤ rne x := by
  have : rne ((0 : ℤ) : ℚ) ≤ rne x := rne_mono (by exact_mod_cast h)
  rwa [rne_intCast] at this

theorem rne_le_intCast {x : ℚ} {m : ℤ} (h : x ≤ (m : ℚ)) : rne x ≤ m := by
  have : rne x ≤ rne (m : ℚ) := rne_mono h
  rwa [rne_intCast] at this

theorem pyRound_mono {x y : ℚ} (n : ℕ) (h : x ≤ y) : pyRound x n ≤ pyRound y n := by
  unfold pyRound
  have hp : (0 : ℚ) < 10 ^ n := by positivity
  have h1 : rne (x * 10 ^ n) ≤ rne (y * 10 ^ n) :=
    rne_mono (by exact mul_le_mul_of_nonneg_right h (le_of_lt hp))
  have h2 : ((rne (x * 10 ^ n) : ℤ) : ℚ) ≤ ((rne (y * 10 ^ n) : ℤ) : ℚ) := by exact_mod_cast h1
  gcongr

theorem pyRound_nonneg {x : ℚ} (n : ℕ) (h : 0 ≤ x) : 0 ≤ pyRound x n := by
  unfold pyRound
  have hp : (0 : ℚ) < 10 ^ n := by positivity
  have h0 : (0 : ℤ) ≤ rne (x * 10 ^ n) := rne_nonneg (by positivity)
  have : (0 : ℚ) ≤ (rne (x * 10 ^ n) : ℚ) := by exact_mod_cast h0
  positivity

theorem pyRound_le_natCast {x : ℚ} {m : ℕ} (n : ℕ) (h : x ≤ (m : ℚ)) :
    pyRound x n ≤ (m : ℚ) := by
  unfold pyRound
  have hp : (0 : ℚ) < 10 ^ n := by positivity
  have h1 : rne (x * 10 ^ n) ≤ ((m * 10 ^ n : ℕ) : ℤ) := by
    apply rne_le_intCast
    push_cast
    exact mul_le_mul_of_nonneg_right h (le_of_lt hp)
  rw [div_le_iff₀ hp]
  calc (rne (x * 10 ^ n) : ℚ) ≤ ((m * 10 ^ n : ℕ) : ℤ) := by exact_mod_cast h1
    _ = (m : ℚ) * 10 ^ n := by push_cast; ring

theorem clamp_nonneg (v : ℚ) : 0 ≤ clamp v 0 100 := le_max_left 0 _

theorem clamp_le_100 (v : ℚ) : clamp v 0 100 ≤ 100 := by
  unfold clamp
  rcases le_total (min 100 v) 0 with h | h
  · rw [max_eq_left h]
    norm_num
  · rw [max_eq_right h]
    exact min_le_left _ _

theorem clamp_mono {x y : ℚ} (lo hi : ℚ) (h : x ≤ y) : clamp x lo hi ≤ clamp y lo hi :=
  max_le_max le_rfl (min_le_min le_rfl h)

/-- The normalized usage summary consumed by the core (`summary` dict in
review-session.py).  `total_tokens` is always present; the other counters may be
missing and are read with the dict-level defaults used by the code. -/
structure Summary where
  total_tokens : ℕ
  input_tokens : Option ℕ
  output_tokens : Option ℕ
  uncached_tokens : Option ℕ
  cache_creation_tokens : Option ℕ
  cache_read_tokens : Option ℕ
  messages : Option ℕ
  avg_tokens_per_message : Option ℚ
  tool_calls : Option ℕ
  retry_loops : Option ℕ
  repeated_context : Option ℚ
  estimated_cost_usd : Option ℚ
deriving DecidableEq

/-- Non-negativity of the rational-valued summary fields (the integer counters
are non-negative by type). -/
def Summary.Nonneg (s : Summary) : Prop :=
  0 ≤ s.repeated_context.getD 0 ∧ 0 ≤ s.estimated_cost_usd.getD 0 ∧
    0 ≤ s.avg_tokens_per_message.getD 0

instance (s : Summary) : Decidable s.Nonneg := by
  unfold Summary.Nonneg
  infer_instance

/-- The optional budget-related CLI arguments consumed by `build_budget`. -/
structure Args where
  max_tokens : Option ℤ
  max_cost_usd : Option ℚ
  timebox_minutes : Option ℚ
  elapsed_minutes : Option ℚ
deriving DecidableEq

/-- Fixed-decimal rendering of a rational, modelling Python's `f"{x:.nf}"`. -/
def fmtFixed (q : ℚ) (digits : ℕ) : String :=
  let scaled : ℤ := rne (q * (10 : ℚ) ^ digits)
  let sign := if scaled < 0 then "-" else ""
  let a : ℕ := scaled.natAbs
  let ip := a / 10 ^ digits
  let fp := a % 10 ^ digits
  let fs := toString fp
  let pad := String.mk (List.replicate (digits - fs.length) '0')
  sign ++ toString ip ++ "." ++ pad ++ fs

/-- The `adherence` sub-dict of a budget result.  A key the code never wrote is
`none`. -/
structure Adherence where
  warnings : List String
  tokens_percent_of_budget : Option ℚ
  tokens_over_budget : Option ℤ
  cost_percent_of_budget : Option ℚ
  cost_over_budget_usd : Option ℚ
  time_percent_of_budget : Option ℚ
  minutes_over_budget : Option ℚ
deriving DecidableEq

/-- The `usage` echo sub-dict of a budget result. -/
structure BudgetUsage where
  total_tokens : ℕ
  uncached_tokens : ℕ
  cache_creation_tokens : Option ℕ
  cache_read_tokens : Option ℕ
  estimated_cost_usd : Option ℚ
  elapsed_minutes : Option ℚ
deriving DecidableEq

/-- A present budget result (`build_budget`'s non-`None` return value); the
`constraints` sub-dict is flattened into the three optional limit fields. -/
structure BudgetResult where
  max_tokens : Option ℤ
  max_cost_usd : Option ℚ
  timebox_minutes : Option ℚ
  usage : BudgetUsage
  adherence : Adherence
deriving DecidableEq

/-- The `max_tokens` block of `build_budget`: percent-of-budget, overage and
warning for the token constraint (all `none`/empty when no limit is given). -/
def budget_tok_part (s : Summary) (mt? : Option ℤ) : Option ℚ × Option ℤ × List String :=
  match mt? with
  | none => (none, none, [])
  | some mt =>
      let pct : ℚ := if 0 < mt then (s.total_tokens : ℚ) / (mt : ℚ) * 100 else 0
      let over : ℤ := max 0 ((s.total_tokens : ℤ) - mt)
      (some (pyRound pct 2), some over,
        if 0 < over then [s!"Token budget exceeded by {over} tokens."] else [])

/-- The `max_cost_usd` block of `build_budget`. -/
def budget_cost_part (s : Summary) (mc? : Option ℚ) : Option ℚ × Option ℚ × List String :=
  match mc? with
  | none => (none, none, [])
  | some mc =>
      let est_cost : ℚ := s.estimated_cost_usd.getD 0
      let pct : ℚ := if 0 < mc then est_cost / mc * 100 else 0
      let over : ℚ := max 0 (est_cost - mc)
      (some (pyRound pct 2), some (pyRound over 6),
        if 0 < over then ["Cost budget exceeded by $" ++ fmtFixed over 4 ++ "."] else [])

/-- The time block of `build_budget`: only produced when both
`elapsed_minutes` and `timebox_minutes` are supplied and the timebox is
positive. -/
def budget_time_part (el? tb? : Option ℚ) : Option ℚ × Option ℚ × List String :=
  match el?, tb? with
  | some el, some tb =>
      if 0 < tb then
        let pct : ℚ := el / tb * 100
        let over : ℚ := max 0 (el - tb)
        (some (pyRound pct 2), some (pyRound over 2),
          if 0 < over then ["Time budget exceeded by " ++ fmtFixed over 2 ++ " minutes."]
          else [])
      else (none, none, [])
  | _, _ => (none, none, [])

/-- `build_budget` from review-session.py. -/
def build_budget (s : Summary) (a : Args) : Option BudgetResult :=
  if a.max_tokens.isNone ∧ a.max_cost_usd.isNone ∧ a.timebox_minutes.isNone ∧
      a.elapsed_minutes.isNone then
    none
  else
    let usage : BudgetUsage :=
      { total_tokens := s.total_tokens
        uncached_tokens := s.uncached_tokens.getD s.total_tokens
        cache_creation_tokens := s.cache_creation_tokens
        cache_read_tokens := s.cache_read_tokens
        estimated_cost_usd := s.estimated_cost_usd
        elapsed_minutes := a.elapsed_minutes }
    let tokPart := budget_tok_part s a.max_tokens
    let costPart := budget_cost_part s a.max_cost_usd
    let timePart := budget_time_part a.elapsed_minutes a.timebox_minutes
    some
      { max_tokens := a.max_tokens
        max_cost_usd := a.max_cost_usd
        timebox_minutes := a.timebox_minutes
        usage := usage
        adherence :=
          { warnings := tokPart.2.2 ++ costPart.2.2 ++ timePart.2.2
            tokens_percent_of_budget := tokPart.1
            tokens_over_budget := tokPart.2.1
            cost_percent_of_budget := costPart.1
            cost_over_budget_usd := costPart.2.1
            time_percent_of_budget := timePart.1
            minutes_over_budget := timePart.2.1 } }

/-- The score set returned by `score_summary`. -/
structure Scores where
  efficiency : ℚ
  reliability : ℚ
  quality_estimate : ℚ
  composite : ℚ
  confidence : String
  score_method : String
deriving DecidableEq

/-- The `if budget is not None` block of `score_summary`: subtract the three
capped overage penalties from the running efficiency value. -/
def apply_budget_penalties (eff : ℚ) (budget : Option BudgetResult) : ℚ :=
  match budget with
  | none => eff
  | some b =>
      let over_tokens : ℚ := ((b.adherence.tokens_over_budget.getD 0 : ℤ) : ℚ)
      let over_cost : ℚ := b.adherence.cost_over_budget_usd.getD 0
      let over_minutes : ℚ := b.adherence.minutes_over_budget.getD 0
      eff - min 20 (over_tokens / 1000 * 4) - min 10 (over_cost * 100)
        - min 10 (over_minutes / 10 * 5)

/-- The clamped (pre-rounding) efficiency value `eff` computed inside
`score_summary`. -/
def raw_efficiency (s : Summary) (budget : Option BudgetResult) : ℚ :=
  let uncached_tokens : ℚ := (s.uncached_tokens.getD s.total_tokens : ℕ)
  let cache_read_tokens : ℚ := (s.cache_read_tokens.getD 0 : ℕ)
  let retry_loops : ℚ := (s.retry_loops.getD 0 : ℕ)
  let tool_calls : ℚ := (s.tool_calls.getD 0 : ℕ)
  let repeated : ℚ := s.repeated_context.getD 0
  let effective_tokens : ℚ := uncached_tokens + cache_read_tokens * 0.1
  let uncached_avg_tpm : ℚ := uncached_tokens / max 1 ((s.messages.getD 0 : ℕ) : ℚ)
  let eff : ℚ :=
    100 - min 40 (effective_tokens / 20000 * 40)
      - min 20 (max 0 ((uncached_avg_tpm - 250) / 500 * 20))
      - min 20 (retry_loops * 6)
      - min 10 (max 0 (tool_calls - 15) * 0.5)
      - repeated * 10
  clamp (apply_budget_penalties eff budget) 0 100

/-- The clamped (pre-rounding) reliability value `rel` computed inside
`score_summary`. -/
def raw_reliability (s : Summary) (source_reliability : ℚ) : ℚ :=
  let has_token_signal : ℚ := if 0 < (s.total_tokens : ℚ) then 1 else 0
  clamp (source_reliability * 80 + has_token_signal * 20) 0 100

/-- The clamped (pre-rounding) quality estimate computed inside
`score_summary`. -/
def raw_quality_estimate (s : Summary) : ℚ :=
  clamp (100 - ((s.retry_loops.getD 0 : ℕ) : ℚ) * 8 - s.repeated_context.getD 0 * 25) 0 100

/-- `score_summary` from review-session.py. -/
def score_summary (s : Summary) (budget : Option BudgetResult)
    (source_reliability : ℚ) : Scores :=
  let eff := raw_efficiency s budget
  let rel := raw_reliability s source_reliability
  let quality_est := raw_quality_estimate s
  let composite := clamp (0.45 * quality_est + 0.35 * eff + 0.20 * rel) 0 100
  let confidence : String :=
    if source_reliability ≥ 0.9 ∧ (10000 : ℚ) < s.total_tokens then "high"
    else if source_reliability ≥ 0.75 ∧ (0 : ℚ) < s.total_tokens then "medium"
    else "low"
  { efficiency := pyRound eff 2
    reliability := pyRound rel 2
    quality_estimate := pyRound quality_est 2
    composite := pyRound composite 2
    confidence := confidence
    score_method := "tool-integrated-v2-uncached-weighted" }

/-- Per-check / overall status (the strings "pass" / "warn" / "fail"). -/
inductive Status where
  | pass : Status
  | warn : Status
  | fail : Status
deriving DecidableEq

/-- The per-run-type threshold table returned by `run_type_thresholds`. -/
structure Thresholds where
  warn_uncached_tokens : ℚ
  fail_uncached_tokens : ℚ
  warn_cost_usd : ℚ
  fail_cost_usd : ℚ
  warn_retry_loops : ℚ
  fail_retry_loops : ℚ
deriving DecidableEq

/-- `run_type_thresholds` from review-session.py. -/
def run_type_thresholds (run_type : String) : Thresholds :=
  if run_type = "smoke" then
    { warn_uncached_tokens := 50, fail_uncached_tokens := 500
      warn_cost_usd := 0.02, fail_cost_usd := 0.05
      warn_retry_loops := 1, fail_retry_loops := 2 }
  else if run_type = "workflow" then
    { warn_uncached_tokens := 50000, fail_uncached_tokens := 120000
      warn_cost_usd := 10, fail_cost_usd := 25
      warn_retry_loops := 3, fail_retry_loops := 6 }
  else
    { warn_uncached_tokens := 120000, fail_uncached_tokens := 300000
      warn_cost_usd := 20, fail_cost_usd := 50
      warn_retry_loops := 4, fail_retry_loops := 8 }

/-- One record of the `checks` list built by `add_check`. -/
structure Check where
  metric : String
  value : ℚ
  warn_limit : ℚ
  fail_limit : ℚ
  status : Status
  unit : String
deriving DecidableEq

/-- The status assignment inside `add_check`. -/
def add_check_status (value warn_limit fail_limit : ℚ) : Status :=
  if fail_limit < value then Status.fail
  else if warn_limit < value then Status.warn
  else Status.pass

/-- `add_check` from review-session.py (the stored value is rounded to six
decimal places; the status is computed from the unrounded value). -/
def add_check (metric : String) (value warn_limit fail_limit : ℚ) (unit : String) : Check :=
  { metric := metric, value := pyRound value 6, warn_limit := warn_limit,
    fail_limit := fail_limit, status := add_check_status value warn_limit fail_limit,
    unit := unit }

/-- The evaluation record returned by `evaluate_run`. -/
structure Evaluation where
  run_type : String
  verdict : Status
  checks : List Check
  thresholds : Thresholds
deriving DecidableEq

/-- `evaluate_run` from review-session.py. -/
def evaluate_run (s : Summary) (run_type : String) : Evaluation :=
  let t := run_type_thresholds run_type
  let checks : List Check :=
    [add_check "uncached_tokens" ((s.uncached_tokens.getD s.total_tokens : ℕ) : ℚ)
        t.warn_uncached_tokens t.fail_uncached_tokens "tokens",
      add_check "estimated_cost_usd" (s.estimated_cost_usd.getD 0)
        t.warn_cost_usd t.fail_cost_usd "usd",
      add_check "retry_loops" ((s.retry_loops.getD 0 : ℕ) : ℚ)
        t.warn_retry_loops t.fail_retry_loops "count"]
  let verdict : Status :=
    if checks.any (fun c => c.status = Status.fail) then Status.fail
    else if checks.any (fun c => c.status = Status.warn) then Status.warn
    else Status.pass
  { run_type := run_type, verdict := verdict, checks := checks, thresholds := t }

/-- A candidate token driver: label and estimated token impact. -/
abbrev Cand := String × ℤ

/-- The descending-by-impact order used to sort driver candidates (Python's
stable `sort(key=..., reverse=True)`). -/
def drivers_le (a b : Cand) : Prop := b.2 ≤ a.2

instance : DecidableRel drivers_le := fun a b => inferInstanceAs (Decidable (b.2 ≤ a.2))

instance : IsTotal Cand drivers_le := ⟨fun a b => le_total b.2 a.2⟩

instance : IsTrans Cand drivers_le := ⟨fun _ _ _ h1 h2 => le_trans h2 h1⟩

/-- `uncached` as read by `build_drivers`. -/
def unc_val (s : Summary) : ℤ := (s.uncached_tokens.getD s.total_tokens : ℕ)

/-- `uncached_avg` as computed by `build_drivers`:
`uncached / max(1, messages)`. -/
def unc_avg (s : Summary) : ℚ :=
  (unc_val s : ℚ) / ((max 1 ((s.messages.getD 0 : ℕ) : ℤ) : ℤ) : ℚ)

/-- The always-present "Session size" candidate of `build_drivers`. -/
def session_cand (s : Summary) : Cand := ("Session size", unc_val s)

/-- The conditional "Cache read volume" candidate of `build_drivers`. -/
def cache_cand (s : Summary) : List Cand :=
  let cache_read : ℤ := (s.cache_read_tokens.getD 0 : ℕ)
  if 0 < cache_read then [("Cache read volume", ⌊(cache_read : ℚ) * 0.1⌋)] else []

/-- The conditional "High tokens per message" candidate of `build_drivers`. -/
def tpm_cand (s : Summary) : List Cand :=
  if 400 < unc_avg s then
    [("High tokens per message",
      max 0 ⌊(unc_avg s - 400) * max 1 (((s.messages.getD 0 : ℕ) : ℚ) * 0.2)⌋)]
  else []

/-- The conditional "Retry/rewrite loops" candidate of `build_drivers`. -/
def retry_cand (s : Summary) : List Cand :=
  let retries : ℤ := (s.retry_loops.getD 0 : ℕ)
  if 0 < retries then [("Retry/rewrite loops", retries * 350)] else []

/-- The conditional "High tool-call volume" candidate of `build_drivers`. -/
def tool_cand (s : Summary) : List Cand :=
  let tools : ℤ := (s.tool_calls.getD 0 : ℕ)
  if 20 < tools then [("High tool-call volume", (tools - 20) * 120)] else []

/-- The conditional "Repeated context" candidate of `build_drivers`. -/
def repeated_cand (s : Summary) : List Cand :=
  let repeated : ℚ := s.repeated_context.getD 0
  if 0.15 < repeated then [("Repeated context", ⌊repeated * (s.total_tokens : ℚ) * 0.4⌋)]
  else []

/-- The candidate-driver list built by `build_drivers` before sorting. -/
def build_driver_candidates (s : Summary) : List Cand :=
  session_cand s ::
    (cache_cand s ++ tpm_cand s ++ retry_cand s ++ tool_cand s ++ repeated_cand s)

/-- One entry of the driver list returned by `build_drivers`. -/
structure Driver where
  rank : ℕ
  driver : String
  estimated_token_impact : ℤ
deriving DecidableEq

/-- The output loop of `build_drivers`: ranks assigned from `start`, impacts
clamped to be non-negative. -/
def withRanks : ℕ → List Cand → List Driver
  | _, [] => []
  | i, c :: rest =>
      { rank := i, driver := c.1, estimated_token_impact := max 0 c.2 } :: withRanks (i + 1) rest

/-- `build_drivers` from review-session.py. -/
def build_drivers (s : Summary) : List Driver :=
  let sorted := List.insertionSort drivers_le (build_driver_candidates s)
  let out := withRanks 1 (sorted.take 5)
  if out.isEmpty then
    [{ rank := 1, driver := "No dominant driver detected", estimated_token_impact := 0 }]
  else out

/-- A trend-ledger row as consumed by `baseline_delta`: the string cells that
parse as numbers are modelled as rationals, a missing cell as `none`. -/
structure TrendRow where
  project : Option String
  source : Option String
  run_type : Option String
  uncached_tokens : Option ℚ
  total_tokens : Option ℚ
  estimated_cost_usd : Option ℚ
  efficiency : Option ℚ
deriving DecidableEq

/-- `to_float` from review-session.py (on an already-parsed optional cell). -/
def to_float (v : Option ℚ) (default : ℚ) : ℚ := v.getD default

/-- `statistics.median` on a list of rationals: sort ascending, take the middle
element (odd length) or the mean of the two middle elements (even length). -/
def median (l : List ℚ) : ℚ :=
  let s := List.insertionSort (· ≤ ·) l
  let n := s.length
  if n % 2 = 1 then s.getD (n / 2) 0
  else (s.getD (n / 2 - 1) 0 + s.getD (n / 2) 0) / 2

/-- One metric block of a baseline delta. -/
structure BaselineMetric where
  current : ℚ
  baseline_median : ℚ
  delta : ℚ
  delta_percent : ℚ
deriving DecidableEq

/-- The record returned by `baseline_delta` when history exists. -/
structure BaselineDelta where
  sample_size : ℕ
  uncached_tokens : BaselineMetric
  estimated_cost_usd : BaselineMetric
  efficiency : BaselineMetric
deriving DecidableEq

/-- `pct_delta` from `baseline_delta`. -/
def pct_delta (current base : ℚ) : ℚ :=
  if base = 0 then 0 else (current - base) / base * 100

/-- The row filter of `baseline_delta`: same project, source and run type. -/
def row_matches (r : TrendRow) (project_slug source run_type : String) : Bool :=
  r.project.getD "" == project_slug && r.source.getD "" == source &&
    r.run_type.getD "real" == run_type

/-- `baseline_delta` from review-session.py. -/
def baseline_delta (trend_rows : List TrendRow) (project_slug source run_type : String)
    (s : Summary) (scores : Scores) : Option BaselineDelta :=
  let similar := trend_rows.filter (fun r => row_matches r project_slug source run_type)
  if similar.isEmpty then none
  else
    let last := similar.drop (similar.length - 5)
    let baseline_uncached := last.map (fun r => to_float r.uncached_tokens (to_float r.total_tokens 0))
    let baseline_cost := last.map (fun r => to_float r.estimated_cost_usd 0)
    let baseline_eff := last.map (fun r => to_float r.efficiency 0)
    let uncached : ℚ := ((s.uncached_tokens.getD s.total_tokens : ℕ) : ℚ)
    let cost : ℚ := s.estimated_cost_usd.getD 0
    let eff : ℚ := scores.efficiency
    let uncached_median := if baseline_uncached.isEmpty then 0 else median baseline_uncached
    let cost_median := if baseline_cost.isEmpty then 0 else median baseline_cost
    let eff_median := if baseline_eff.isEmpty then 0 else median baseline_eff
    some
      { sample_size := last.length
        uncached_tokens :=
          { current := pyRound uncached 2, baseline_median := pyRound uncached_median 2
            delta := pyRound (uncached - uncached_median) 2
            delta_percent := pyRound (pct_delta uncached uncached_median) 2 }
        estimated_cost_usd :=
          { current := pyRound cost 6, baseline_median := pyRound cost_median 6
            delta := pyRound (cost - cost_median) 6
            delta_percent := pyRound (pct_delta cost cost_median) 2 }
        efficiency :=
          { current := pyRound eff 2, baseline_median := pyRound eff_median 2
            delta := pyRound (eff - eff_median) 2
            delta_percent := pyRound (pct_delta eff eff_median) 2 } }

/-- A raw CSV trend-ledger row of any (old or current) schema: each current
column is present (`some cell`) or missing (`none`). -/
structure CsvRow where
  date : Option String
  project : Option String
  source : Option String
  run_type : Option String
  session_reference_id : Option String
  session_id : Option String
  uncached_tokens : Option String
  total_tokens : Option String
  input_tokens : Option String
  output_tokens : Option String
  tool_calls : Option String
  retry_loops : Option String
  efficiency : Option String
  reliability : Option String
  composite : Option String
  estimated_cost_usd : Option String
  verdict : Option String
  report_path : Option String
deriving DecidableEq

/-- A trend-ledger row in the current schema: every column present. -/
structure CurrentRow where
  date : String
  project : String
  source : String
  run_type : String
  session_reference_id : String
  session_id : String
  uncached_tokens : String
  total_tokens : String
  input_tokens : String
  output_tokens : String
  tool_calls : String
  retry_loops : String
  efficiency : String
  reliability : String
  composite : String
  estimated_cost_usd : String
  verdict : String
  report_path : String
deriving DecidableEq

/-- The per-row schema migration performed by `append_trend_row` when the
ledger's header differs from the current column set. -/
def migrate_row (r : CsvRow) : CurrentRow :=
  { date := r.date.getD ""
    project := r.project.getD ""
    source := r.source.getD ""
    run_type := r.run_type.getD "real"
    session_reference_id := r.session_reference_id.getD ""
    session_id := r.session_id.getD ""
    uncached_tokens := r.uncached_tokens.getD (r.total_tokens.getD "0")
    total_tokens := r.total_tokens.getD "0"
    input_tokens := r.input_tokens.getD "0"
    output_tokens := r.output_tokens.getD "0"
    tool_calls := r.tool_calls.getD "0"
    retry_loops := r.retry_loops.getD "0"
    efficiency := r.efficiency.getD "0"
    reliability := r.reliability.getD "0"
    composite := r.composite.getD "0"
    estimated_cost_usd := r.estimated_cost_usd.getD "0"
    verdict := r.verdict.getD ""
    report_path := r.report_path.getD "" }

/-- View a current-schema row as a raw CSV row (every column present). -/
def CurrentRow.toCsv (r : CurrentRow) : CsvRow :=
  { date := some r.date
    project := some r.project
    source := some r.source
    run_type := some r.run_type
    session_reference_id := some r.session_reference_id
    session_id := some r.session_id
    uncached_tokens := some r.uncached_tokens
    total_tokens := some r.total_tokens
    input_tokens := some r.input_tokens
    output_tokens := some r.output_tokens
    tool_calls := some r.tool_calls
    retry_loops := some r.retry_loops
    efficiency := some r.efficiency
    reliability := some r.reliability
    composite := some r.composite
    estimated_cost_usd := some r.estimated_cost_usd
    verdict := some r.verdict
    report_path := some r.report_path }

/-! ### Spec-side definitions and example inputs -/

/-- The efficiency formula exactly as the specification states it (C1): start at
100, subtract the capped penalties, then clamp to [0,100] — with no final
rounding step.  Written from the spec's words, to be compared against
`score_summary`. -/
def spec_efficiency (s : Summary) (budget : Option BudgetResult) : ℚ :=
  let uncached : ℚ := (s.uncached_tokens.getD s.total_tokens : ℕ)
  let cache_read : ℚ := (s.cache_read_tokens.getD 0 : ℕ)
  let messages : ℚ := (s.messages.getD 0 : ℕ)
  let retry_loops : ℚ := (s.retry_loops.getD 0 : ℕ)
  let tool_calls : ℚ := (s.tool_calls.getD 0 : ℕ)
  let repeated : ℚ := s.repeated_context.getD 0
  let base : ℚ :=
    100 - min 40 ((uncached + 0.1 * cache_read) / 20000 * 40)
      - min 20 (max 0 ((uncached / max 1 messages - 250) / 500 * 20))
      - min 20 (6 * retry_loops)
      - min 10 (0.5 * max 0 (tool_calls - 15))
      - 10 * repeated
  let withBudget : ℚ :=
    match budget with
    | none => base
    | some b =>
        base - min 20 (((b.adherence.tokens_over_budget.getD 0 : ℤ) : ℚ) / 1000 * 4)
          - min 10 (b.adherence.cost_over_budget_usd.getD 0 * 100)
          - min 10 (b.adherence.minutes_over_budget.getD 0 / 10 * 5)
  clamp withBudget 0 100

/-- An all-empty usage summary (only the mandatory total is present, at 0). -/
def exZero : Summary :=
  ⟨0, none, none, none, none, none, none, none, none, none, none, none⟩

/-- A small fully-populated usage summary used to instantiate theorems. -/
def exSummary : Summary :=
  ⟨12000, some 5000, some 4000, some 9000, some 3000, some 3000, some 40,
    some 300, some 10, some 1, some (1/10), some (3/2)⟩

/-- A usage summary whose repeated-context ratio has more than two decimal
places, exposing the final rounding step of `score_summary`. -/
def cxSummary : Summary :=
  ⟨0, none, none, none, none, none, none, none, none, none, some (621/10000), none⟩

/-! ### C9: trend-row schema migration -/

/-- C9: migrating a trend-ledger row to the current column set is idempotent
(an already-current row is left unchanged, and re-migrating a migrated row is a
no-op), preserves every stored value for columns present in both schemas, and
backfills a missing `uncached_tokens` column from the row's `total_tokens`
value. -/
theorem migrate_row_correct :
    (∀ c : CurrentRow, migrate_row c.toCsv = c) ∧
    (∀ r : CsvRow, migrate_row (migrate_row r).toCsv = migrate_row r) ∧
    (∀ (r : CsvRow) (v : String),
      (r.date = some v → (migrate_row r).date = v) ∧
      (r.project = some v → (migrate_row r).project = v) ∧
      (r.source = some v → (migrate_row r).source = v) ∧
      (r.run_type = some v → (migrate_row r).run_type = v) ∧
      (r.session_reference_id = some v → (migrate_row r).session_reference_id = v) ∧
      (r.session_id = some v → (migrate_row r).session_id = v) ∧
      (r.uncached_tokens = some v → (migrate_row r).uncached_tokens = v) ∧
      (r.total_tokens = some v → (migrate_row r).total_tokens = v) ∧
      (r.input_tokens = some v → (migrate_row r).input_tokens = v) ∧
      (r.output_tokens = some v → (migrate_row r).output_tokens = v) ∧
      (r.tool_calls = some v → (migrate_row r).tool_calls = v) ∧
      (r.retry_loops = some v → (migrate_row r).retry_loops = v) ∧
      (r.efficiency = some v → (migrate_row r).efficiency = v) ∧
      (r.reliability = some v → (migrate_row r).reliability = v) ∧
      (r.composite = some v → (migrate_row r).composite = v) ∧
      (r.estimated_cost_usd = some v → (migrate_row r).estimated_cost_usd = v) ∧
      (r.verdict = some v → (migrate_row r).verdict = v) ∧
      (r.report_path = some v → (migrate_row r).report_path = v)) ∧
    (∀ r : CsvRow, r.uncached_tokens = none →
      (migrate_row r).uncached_tokens = r.total_tokens.getD "0") :=
  ⟨fun _ => rfl, fun _ => rfl,
    fun r v =>
      ⟨fun h => by simp [migrate_row, h], fun h => by simp [migrate_row, h],
        fun h => by simp [migrate_row, h], fun h => by simp [migrate_row, h],
        fun h => by simp [migrate_row, h], fun h => by simp [migrate_row, h],
        fun h => by simp [migrate_row, h], fun h => by simp [migrate_row, h],
        fun h => by simp [migrate_row, h], fun h => by simp [migrate_row, h],
        fun h => by simp [migrate_row, h], fun h => by simp [migrate_row, h],
        fun h => by simp [migrate_row, h], fun h => by simp [migrate_row, h],
        fun h => by simp [migrate_row, h], fun h => by simp [migrate_row, h],
        fun h => by simp [migrate_row, h], fun h => by simp [migrate_row, h]⟩,
    fun r h => by simp [migrate_row, h]⟩

/-- An old-schema row: no `uncached_tokens` column, `total_tokens` stored. -/
def exOldRow : CsvRow :=
  { date := some "2024-01-01", project := some "proj", source := some "codex"
    run_type := none, session_reference_id := none, session_id := some "abc"
    uncached_tokens := none, total_tokens := some "12345", input_tokens := some "10"
    output_tokens := some "20", tool_calls := some "3", retry_loops := some "1"
    efficiency := some "88.5", reliability := some "90.0", composite := some "89.0"
    estimated_cost_usd := some "0.5", verdict := some "pass", report_path := none }

/-- C9 witness: the migration theorem applied to a concrete old-schema row. -/
theorem migrate_row_correct_witness :
    (migrate_row exOldRow).date = "2024-01-01" ∧
    (migrate_row exOldRow).uncached_tokens = "12345" ∧
    migrate_row (migrate_row exOldRow).toCsv = migrate_row exOldRow :=
  ⟨(migrate_row_correct.2.2.1 exOldRow "2024-01-01").1 rfl,
    by rw [migrate_row_correct.2.2.2 exOldRow rfl]; rfl,
    migrate_row_correct.2.1 exOldRow⟩

/-! ### C6: presence of the budget result -/

/-- C6 counterexample: with only `elapsed_minutes` supplied (none of the three
limits `max_tokens`, `max_cost_usd`, `timebox_minutes`), `build_budget` still
returns a present budget result, so "absent iff no limit supplied" is false. -/
theorem build_budget_presence_cx :
    (Args.mk none none none (some 5)).max_tokens = none ∧
    (Args.mk none none none (some 5)).max_cost_usd = none ∧
    (Args.mk none none none (some 5)).timebox_minutes = none ∧
    build_budget exZero (Args.mk none none none (some 5)) ≠ none := by
  refine ⟨rfl, rfl, rfl, ?_⟩
  simp [build_budget]

/-- C6 (amended): `build_budget` returns `none` iff none of `max_tokens`,
`max_cost_usd`, `timebox_minutes` and `elapsed_minutes` is supplied; the
absent case is a distinguished `none`, never a degenerate all-zero record. -/
theorem build_budget_none_iff (s : Summary) (a : Args) :
    build_budget s a = none ↔
      a.max_tokens = none ∧ a.max_cost_usd = none ∧ a.timebox_minutes = none ∧
        a.elapsed_minutes = none := by
  unfold build_budget
  split_ifs with h
  · simp only [Option.isNone_iff_eq_none] at h
    exact iff_of_true rfl h
  · simp only [Option.isNone_iff_eq_none] at h
    exact iff_of_false (by simp) h

/-! ### C1: the efficiency formula -/

theorem raw_efficiency_eq_spec (s : Summary) (b : Option BudgetResult) :
    raw_efficiency s b = spec_efficiency s b := by
  unfold raw_efficiency spec_efficiency apply_budget_penalties
  rcases b with _ | b <;>
    · dsimp only
      congr 1
      ring_nf

/-- C1 counterexample: for the summary whose repeated-context ratio is 0.0621
(all other counters zero), the spec formula gives 99.379 but `score_summary`
returns 99.38 — the code rounds the clamped efficiency to two decimal places,
so the claimed exact equality with the un-rounded formula fails. -/
theorem raw_efficiency_cx_value : raw_efficiency cxSummary none = 99379/1000 := by
  unfold raw_efficiency cxSummary apply_budget_penalties
  simp only [Option.getD_some, Option.getD_none]
  norm_num [clamp]

theorem score_summary_efficiency_cx :
    cxSummary.Nonneg ∧
      (score_summary cxSummary none 1).efficiency ≠ spec_efficiency cxSummary none := by
  constructor
  · refine ⟨?_, ?_, ?_⟩ <;> norm_num [cxSummary]
  · have h1 : (score_summary cxSummary none 1).efficiency =
        pyRound (raw_efficiency cxSummary none) 2 := rfl
    rw [h1, ← raw_efficiency_eq_spec, raw_efficiency_cx_value]
    have hfl : ⌊(99379 : ℚ)/1000 * 10 ^ 2⌋ = 9937 := by
      norm_num
    unfold pyRound rne
    rw [hfl]
    norm_num

/-- C1 (amended): for every usage summary with non-negative fields, any
optional budget result and any source reliability, the efficiency returned by
`score_summary` equals the spec formula (start at 100, subtract the capped
penalties, clamp to [0,100]) rounded half-even to two decimal places. -/
theorem score_summary_efficiency_eq_spec (s : Summary) (b : Option BudgetResult)
    (source_reliability : ℚ) (h : s.Nonneg) :
    (score_summary s b source_reliability).efficiency = pyRound (spec_efficiency s b) 2 := by
  have : (score_summary s b source_reliability).efficiency = pyRound (raw_efficiency s b) 2 := rfl
  rw [this, raw_efficiency_eq_spec]

/-- C1 witness: the amended equality instantiated on a concrete summary with a
budget result present. -/
theorem score_summary_efficiency_eq_spec_witness :
    (score_summary exSummary (build_budget exSummary (Args.mk (some 10000) (some 1) (some 10) (some 25)))
        (8/10)).efficiency =
      pyRound (spec_efficiency exSummary
        (build_budget exSummary (Args.mk (some 10000) (some 1) (some 10) (some 25)))) 2 :=
  score_summary_efficiency_eq_spec exSummary _ (8/10) (by refine ⟨?_, ?_, ?_⟩ <;> norm_num [exSummary])

/-! ### C3: all four scores lie in [0, 100] -/

theorem raw_efficiency_mem (s : Summary) (b : Option BudgetResult) :
    0 ≤ raw_efficiency s b ∧ raw_efficiency s b ≤ 100 := by
  unfold raw_efficiency
  exact ⟨clamp_nonneg _, clamp_le_100 _⟩

theorem pyRound2_mem {x : ℚ} (h0 : 0 ≤ x) (h1 : x ≤ 100) :
    0 ≤ pyRound x 2 ∧ pyRound x 2 ≤ 100 :=
  ⟨pyRound_nonneg 2 h0, by exact_mod_cast pyRound_le_natCast (m := 100) 2 (by exact_mod_cast h1)⟩

/-- C3: for every usage summary with non-negative fields, every budget result
and every source reliability in [0,1], all four scores returned by
`score_summary` — efficiency, reliability, quality estimate, composite — lie
in [0,100]. -/
theorem score_summary_in_range (s : Summary) (b : Option BudgetResult)
    (source_reliability : ℚ) (hs : s.Nonneg) (h0 : 0 ≤ source_reliability)
    (h1 : source_reliability ≤ 1) :
    (0 ≤ (score_summary s b source_reliability).efficiency ∧
      (score_summary s b source_reliability).efficiency ≤ 100) ∧
    (0 ≤ (score_summary s b source_reliability).reliability ∧
      (score_summary s b source_reliability).reliability ≤ 100) ∧
    (0 ≤ (score_summary s b source_reliability).quality_estimate ∧
      (score_summary s b source_reliability).quality_estimate ≤ 100) ∧
    (0 ≤ (score_summary s b source_reliability).composite ∧
      (score_summary s b source_reliability).composite ≤ 100) := by
  refine ⟨?_, ?_, ?_, ?_⟩
  · exact pyRound2_mem (raw_efficiency_mem s b).1 (raw_efficiency_mem s b).2
  · exact pyRound2_mem (clamp_nonneg _) (clamp_le_100 _)
  · exact pyRound2_mem (clamp_nonneg _) (clamp_le_100 _)
  · exact pyRound2_mem (clamp_nonneg _) (clamp_le_100 _)

/-- C3 witness: the range theorem instantiated on a concrete summary with an
extreme token count and a present budget result. -/
theorem score_summary_in_range_witness :
    0 ≤ (score_summary (Summary.mk 1000000000 none none none none none none none
        (some 1000) (some 50) (some 1) (some 100))
      (build_budget exSummary (Args.mk (some 1) (some (1/1000)) (some (1/2)) (some 10000)))
      (19/20)).efficiency := by
  exact ((score_summary_in_range _ _ (19/20) (by refine ⟨?_, ?_, ?_⟩ <;> norm_num) (by norm_num) (by norm_num)).1).1

/-! ### C7: per-constraint budget adherence -/

/-- C7 counterexample: with a supplied but non-positive timebox (0 minutes) and
a supplied elapsed time, `build_budget` produces no time check at all — neither
a percent-of-budget of 0 nor an overage — contradicting "for each supplied
constraint, percent = 0 when the limit is ≤ 0". -/
theorem build_budget_time_cx :
    ∃ b, build_budget exZero (Args.mk none none (some 0) (some 5)) = some b ∧
      b.timebox_minutes = some 0 ∧
      b.adherence.time_percent_of_budget = none ∧
      b.adherence.minutes_over_budget = none := by
  refine ⟨_, rfl, rfl, ?_, ?_⟩ <;> norm_num [budget_time_part]

/-- C7 (amended): for the token and cost constraints, `build_budget` computes
percent-of-budget = current/limit·100 when the limit is positive and 0 when it
is ≤ 0 (never a division error), and overage = max(0, current − limit), storing
them rounded to 2 (resp. 6) decimal places; the time check is produced exactly
when both `timebox_minutes` and `elapsed_minutes` are supplied and the timebox
is positive (a non-positive timebox yields no time check); and the warnings
list holds exactly one entry per exceeded constraint. -/
theorem build_budget_adherence (s : Summary) (a : Args) (b : BudgetResult)
    (h : build_budget s a = some b) :
    (a.max_tokens = none → b.adherence.tokens_percent_of_budget = none ∧
      b.adherence.tokens_over_budget = none) ∧
    (∀ mt : ℤ, a.max_tokens = some mt →
      b.adherence.tokens_percent_of_budget =
        some (pyRound (if 0 < mt then (s.total_tokens : ℚ) / (mt : ℚ) * 100 else 0) 2) ∧
      b.adherence.tokens_over_budget = some (max 0 ((s.total_tokens : ℤ) - mt))) ∧
    (a.max_cost_usd = none → b.adherence.cost_percent_of_budget = none ∧
      b.adherence.cost_over_budget_usd = none) ∧
    (∀ mc : ℚ, a.max_cost_usd = some mc →
      b.adherence.cost_percent_of_budget =
        some (pyRound (if 0 < mc then s.estimated_cost_usd.getD 0 / mc * 100 else 0) 2) ∧
      b.adherence.cost_over_budget_usd =
        some (pyRound (max 0 (s.estimated_cost_usd.getD 0 - mc)) 6)) ∧
    (b.adherence.time_percent_of_budget ≠ none ↔
      ∃ el tb : ℚ, a.elapsed_minutes = some el ∧ a.timebox_minutes = some tb ∧ 0 < tb) ∧
    (∀ el tb : ℚ, a.elapsed_minutes = some el → a.timebox_minutes = some tb → 0 < tb →
      b.adherence.time_percent_of_budget = some (pyRound (el / tb * 100) 2) ∧
      b.adherence.minutes_over_budget = some (pyRound (max 0 (el - tb)) 2)) ∧
    b.adherence.warnings.length =
      (a.max_tokens.elim 0 fun mt => if mt < (s.total_tokens : ℤ) then 1 else 0) +
      (a.max_cost_usd.elim 0 fun mc => if mc < s.estimated_cost_usd.getD 0 then 1 else 0) +
      (match a.elapsed_minutes, a.timebox_minutes with
        | some el, some tb => if 0 < tb ∧ tb < el then 1 else 0
        | _, _ => 0) := by
  unfold build_budget at h
  split_ifs at h with hc
  rw [Option.some_inj] at h
  subst h
  refine ⟨?_, ?_, ?_, ?_, ?_, ?_, ?_⟩
  · intro hmt
    simp [budget_tok_part, hmt]
  · intro mt hmt
    simp [budget_tok_part, hmt]
  · intro hmc
    simp [budget_cost_part, hmc]
  · intro mc hmc
    simp [budget_cost_part, hmc]
  · rcases hel : a.elapsed_minutes with _ | el <;>
      rcases htb : a.timebox_minutes with _ | tb <;>
        simp [budget_time_part, hel, htb]
    rcases lt_or_le 0 tb with h0 | h0
    · simp [h0]
    · simp [not_lt.mpr h0, not_lt_of_le h0]
  · intro el tb hel htb h0
    simp [budget_time_part, hel, htb, h0]
  · rcases hmt : a.max_tokens with _ | mt <;>
      rcases hmc : a.max_cost_usd with _ | mc <;>
        rcases hel : a.elapsed_minutes with _ | el <;>
          rcases htb : a.timebox_minutes with _ | tb <;>
            simp [budget_tok_part, budget_time_part, budget_cost_part,
              hmt, hmc, hel, htb, List.length_append, apply_ite List.length] <;>
    · rcases lt_or_le 0 tb with h0 | h0 <;>
        simp [h0, not_lt_of_le, apply_ite List.length] <;> omega

/-- C7 witness: the adherence theorem applied to a concrete budget with the
token and time constraints exceeded and no cost constraint. -/
theorem build_budget_adherence_witness :
    ∃ b, build_budget exSummary (Args.mk (some 1000) none (some 10) (some 25)) = some b ∧
      b.adherence.tokens_over_budget = some 11000 ∧
      b.adherence.warnings.length = 2 := by
  have hsome : build_budget exSummary (Args.mk (some 1000) none (some 10) (some 25)) =
      some (build_budget exSummary (Args.mk (some 1000) none (some 10) (some 25))|>.getD
        (BudgetResult.mk none none none (BudgetUsage.mk 0 0 none none none none)
          (Adherence.mk [] none none none none none none))) := by
    unfold build_budget
    rw [if_neg (by simp)]
    rfl
  refine ⟨_, hsome, ?_, ?_⟩
  · rw [((build_budget_adherence exSummary _ _ hsome).2.1 1000 rfl).2]
    norm_num [exSummary]
  · rw [(build_budget_adherence exSummary _ _ hsome).2.2.2.2.2.2]
    norm_num [exSummary]

/-! ### C2: threshold evaluation -/

/-- C2: for every usage summary and run type, `evaluate_run` produces exactly
three checks — uncached_tokens, estimated_cost_usd, retry_loops — whose status
is fail iff the metric's value exceeds its fail limit, else warn iff it exceeds
its warn limit, else pass; and the verdict is fail iff some check fails, warn
iff none fails and some warns, and pass iff all checks pass. -/
theorem evaluate_run_correct (s : Summary) (run_type : String) :
    ∃ c1 c2 c3 : Check,
      (evaluate_run s run_type).checks = [c1, c2, c3] ∧
      c1.metric = "uncached_tokens" ∧ c2.metric = "estimated_cost_usd" ∧
      c3.metric = "retry_loops" ∧
      c1.warn_limit = (run_type_thresholds run_type).warn_uncached_tokens ∧
      c1.fail_limit = (run_type_thresholds run_type).fail_uncached_tokens ∧
      c2.warn_limit = (run_type_thresholds run_type).warn_cost_usd ∧
      c2.fail_limit = (run_type_thresholds run_type).fail_cost_usd ∧
      c3.warn_limit = (run_type_thresholds run_type).warn_retry_loops ∧
      c3.fail_limit = (run_type_thresholds run_type).fail_retry_loops ∧
      (c1.status =
        if c1.fail_limit < ((s.uncached_tokens.getD s.total_tokens : ℕ) : ℚ) then Status.fail
        else if c1.warn_limit < ((s.uncached_tokens.getD s.total_tokens : ℕ) : ℚ) then Status.warn
        else Status.pass) ∧
      (c2.status =
        if c2.fail_limit < s.estimated_cost_usd.getD 0 then Status.fail
        else if c2.warn_limit < s.estimated_cost_usd.getD 0 then Status.warn
        else Status.pass) ∧
      (c3.status =
        if c3.fail_limit < ((s.retry_loops.getD 0 : ℕ) : ℚ) then Status.fail
        else if c3.warn_limit < ((s.retry_loops.getD 0 : ℕ) : ℚ) then Status.warn
        else Status.pass) ∧
      ((evaluate_run s run_type).verdict = Status.fail ↔
        ∃ c ∈ (evaluate_run s run_type).checks, c.status = Status.fail) ∧
      ((evaluate_run s run_type).verdict = Status.warn ↔
        (∀ c ∈ (evaluate_run s run_type).checks, c.status ≠ Status.fail) ∧
          ∃ c ∈ (evaluate_run s run_type).checks, c.status = Status.warn) ∧
      ((evaluate_run s run_type).verdict = Status.pass ↔
        ∀ c ∈ (evaluate_run s run_type).checks, c.status = Status.pass) := by
  refine ⟨_, _, _, rfl, rfl, rfl, rfl, rfl, rfl, rfl, rfl, rfl, rfl, rfl, rfl, rfl, ?_, ?_, ?_⟩ <;>
    · show Evaluation.verdict ⟨run_type, _, _, _⟩ = _ ↔ _
      simp only [evaluate_run, add_check, List.any_cons, List.any_nil, Bool.or_false,
        List.mem_cons, List.not_mem_nil, or_false]
      generalize add_check_status ((s.uncached_tokens.getD s.total_tokens : ℕ) : ℚ)
        (run_type_thresholds run_type).warn_uncached_tokens
        (run_type_thresholds run_type).fail_uncached_tokens = st1
      generalize add_check_status (s.estimated_cost_usd.getD 0)
        (run_type_thresholds run_type).warn_cost_usd
        (run_type_thresholds run_type).fail_cost_usd = st2
      generalize add_check_status ((s.retry_loops.getD 0 : ℕ) : ℚ)
        (run_type_thresholds run_type).warn_retry_loops
        (run_type_thresholds run_type).fail_retry_loops = st3
      cases st1 <;> cases st2 <;> cases st3 <;> simp

/-- C2 witness: the evaluation theorem applied to a concrete smoke-type run,
whose uncached-token count exceeds the smoke fail limit. -/
theorem evaluate_run_correct_witness :
    (evaluate_run exSummary "smoke").verdict = Status.fail := by
  obtain ⟨c1, c2, c3, hck, _, _, _, _, hf1, _, _, _, _, hs1, _, _, hvf, _, _⟩ :=
    evaluate_run_correct exSummary "smoke"
  refine hvf.mpr ⟨c1, by simp [hck], ?_⟩
  rw [hs1, if_pos]
  rw [hf1]
  norm_num [exSummary, run_type_thresholds]

/-! ### C8: efficiency is monotonically non-increasing -/

theorem apply_budget_penalties_mono {b : Option BudgetResult} {x y : ℚ}
    (h : x ≤ y) : apply_budget_penalties x b ≤ apply_budget_penalties y b := by
  rcases b with _ | bb
  · exact h
  · unfold apply_budget_penalties
    dsimp only
    linarith

/-- C8: holding all other fields, the budget result and the source reliability
fixed, the efficiency returned by `score_summary` never increases when
`retry_loops` increases, when `tool_calls` increases (the penalty applies
beyond 15), or when `repeated_context_ratio` increases. -/
theorem score_summary_efficiency_monotone (s : Summary) (b : Option BudgetResult)
    (source_reliability : ℚ) :
    (∀ r1 r2 : ℕ, r1 ≤ r2 →
      (score_summary { s with retry_loops := some r2 } b source_reliability).efficiency ≤
        (score_summary { s with retry_loops := some r1 } b source_reliability).efficiency) ∧
    (∀ t1 t2 : ℕ, t1 ≤ t2 →
      (score_summary { s with tool_calls := some t2 } b source_reliability).efficiency ≤
        (score_summary { s with tool_calls := some t1 } b source_reliability).efficiency) ∧
    (∀ q1 q2 : ℚ, q1 ≤ q2 →
      (score_summary { s with repeated_context := some q2 } b source_reliability).efficiency ≤
        (score_summary { s with repeated_context := some q1 } b source_reliability).efficiency) := by
  refine ⟨?_, ?_, ?_⟩ <;> intro a1 a2 hle <;>
    · apply pyRound_mono
      unfold raw_efficiency
      dsimp only
      simp only [Option.getD_some]
      apply clamp_mono
      apply apply_budget_penalties_mono
      gcongr

/-- C8 witness: the monotonicity theorem applied at concrete retry counts. -/
theorem score_summary_efficiency_monotone_witness :
    (score_summary { exSummary with retry_loops := some 5 } none 1).efficiency ≤
      (score_summary { exSummary with retry_loops := some 3 } none 1).efficiency :=
  (score_summary_efficiency_monotone exSummary none 1).1 3 5 (by norm_num)

/-! ### C5: baseline delta -/

/-- The most recent `k` elements of a list (Python's `l[-k:]`), written as the
spec phrases it: the last `k` in order. -/
def most_recent (k : ℕ) (l : List TrendRow) : List TrendRow := (l.reverse.take k).reverse

theorem most_recent_eq_drop (k : ℕ) (l : List TrendRow) :
    most_recent k l = l.drop (l.length - k) := by
  unfold most_recent
  rw [List.take_reverse, List.reverse_reverse]

/-- A single prior trend row matching the example group, with an uncached-token
count of 7000. -/
def cxRows : List TrendRow :=
  [TrendRow.mk (some "proj") (some "codex") (some "real") (some 7000) (some 8000)
    (some 1) (some 90)]

/-- C5 counterexample: against a single matching prior row with median uncached
7000 and a current session at 9000, the stored percentage delta is
round((9000−7000)/7000·100, 2) = 28.57, not the exact (9000−7000)/7000·100 =
200/7 the claim asserts — `baseline_delta` rounds every reported value (2
decimals for token/efficiency fields and percentage deltas, 6 for cost). -/
theorem baseline_delta_rounding_cx :
    ∃ bd, baseline_delta cxRows "proj" "codex" "real" exSummary
        (score_summary exSummary none 1) = some bd ∧
      bd.uncached_tokens.current = 9000 ∧
      bd.uncached_tokens.baseline_median = 7000 ∧
      bd.uncached_tokens.delta = 2000 ∧
      bd.uncached_tokens.delta_percent = 2857/100 ∧
      bd.uncached_tokens.delta_percent ≠ ((9000 : ℚ) - 7000) / 7000 * 100 := by
  have hfilter : cxRows.filter (fun r => row_matches r "proj" "codex" "real") = cxRows := rfl
  have hmed : median [(7000 : ℚ)] = 7000 := rfl
  have hr7 : pyRound (7000 : ℚ) 2 = 7000 := by
    unfold pyRound rne
    norm_num
  have hr9 : pyRound (9000 : ℚ) 2 = 9000 := by
    unfold pyRound rne
    norm_num
  have hr2 : pyRound ((9000 : ℚ) - 7000) 2 = 2000 := by
    unfold pyRound rne
    norm_num
  have hpct : pct_delta (9000 : ℚ) 7000 = 200/7 := by
    unfold pct_delta
    norm_num
  have hrp : pyRound ((200 : ℚ)/7) 2 = 2857/100 := by
    have hfl : ⌊(200 : ℚ)/7 * 10 ^ 2⌋ = 2857 := by norm_num
    unfold pyRound rne
    rw [hfl]
    norm_num
  unfold baseline_delta
  dsimp only
  rw [hfilter]
  rw [if_neg (by norm_num [cxRows])]
  refine ⟨_, rfl, ?_, ?_, ?_, ?_, ?_⟩ <;>
    simp only [cxRows, exSummary, List.length_cons, List.length_nil, List.drop,
      List.map_cons, List.map_nil, List.isEmpty_cons, Option.getD_some, to_float,
      Bool.false_eq_true, if_false, hmed, Nat.cast_ofNat]
  · exact hr9
  · exact hr7
  · exact hr2
  · rw [hpct]
    exact hrp
  · rw [hpct, hrp]
    norm_num

/-- C5 (amended): `baseline_delta` returns `none` exactly when no trend row
matches the current (project, source, run_type) group; with N ≥ 1 matching rows
it reports `sample_size = min N 5` and, for uncached tokens, cost and
efficiency, the median over the most recent `min N 5` matching rows together
with the current-minus-median absolute and percentage deltas, each stored
rounded half-even (two decimal places for the token and efficiency fields and
for every percentage delta, six for the cost fields). -/
theorem baseline_delta_correct (rows : List TrendRow) (project_slug source run_type : String)
    (s : Summary) (scores : Scores) :
    (baseline_delta rows project_slug source run_type s scores = none ↔
      rows.filter (fun r => row_matches r project_slug source run_type) = []) ∧
    ∀ bd, baseline_delta rows project_slug source run_type s scores = some bd →
      (let similar := rows.filter (fun r => row_matches r project_slug source run_type)
       let recent := most_recent 5 similar
       let uncached : ℚ := ((s.uncached_tokens.getD s.total_tokens : ℕ) : ℚ)
       let cost : ℚ := s.estimated_cost_usd.getD 0
       let eff : ℚ := scores.efficiency
       let u_med := median (recent.map fun r => to_float r.uncached_tokens (to_float r.total_tokens 0))
       let c_med := median (recent.map fun r => to_float r.estimated_cost_usd 0)
       let e_med := median (recent.map fun r => to_float r.efficiency 0)
       bd.sample_size = min similar.length 5 ∧
       bd.uncached_tokens = BaselineMetric.mk (pyRound uncached 2) (pyRound u_med 2)
         (pyRound (uncached - u_med) 2) (pyRound (pct_delta uncached u_med) 2) ∧
       bd.estimated_cost_usd = BaselineMetric.mk (pyRound cost 6) (pyRound c_med 6)
         (pyRound (cost - c_med) 6) (pyRound (pct_delta cost c_med) 2) ∧
       bd.efficiency = BaselineMetric.mk (pyRound eff 2) (pyRound e_med 2)
         (pyRound (eff - e_med) 2) (pyRound (pct_delta eff e_med) 2)) := by
  constructor
  · unfold baseline_delta
    dsimp only
    split_ifs with h
    · rw [List.isEmpty_iff] at h
      exact iff_of_true rfl h
    · rw [List.isEmpty_iff] at h
      exact iff_of_false (by simp) h
  · intro bd hbd
    unfold baseline_delta at hbd
    dsimp only at hbd
    by_cases hE : (rows.filter (fun r => row_matches r project_slug source run_type)).isEmpty
    · rw [if_pos hE] at hbd
      simp at hbd
    · rw [if_neg hE] at hbd
      have h : rows.filter (fun r => row_matches r project_slug source run_type) ≠ [] := by
        simpa [List.isEmpty_iff] using hE
      have hlen : (rows.filter (fun r => row_matches r project_slug source run_type)).length ≠ 0 := by
        simpa [List.length_eq_zero] using h
      have hne :
          (rows.filter (fun r => row_matches r project_slug source run_type)).drop
            ((rows.filter (fun r => row_matches r project_slug source run_type)).length - 5) ≠
            [] := by
        rw [← List.length_pos_iff_ne_nil, List.length_drop]
        omega
      rw [if_neg (by simpa [List.isEmpty_iff, List.map_eq_nil_iff] using hne),
        if_neg (by simpa [List.isEmpty_iff, List.map_eq_nil_iff] using hne),
        if_neg (by simpa [List.isEmpty_iff, List.map_eq_nil_iff] using hne)] at hbd
      rw [Option.some_inj] at hbd
      subst hbd
      refine ⟨?_, ?_, ?_, ?_⟩
      · show List.length _ = _
        rw [List.length_drop]
        omega
      all_goals
        dsimp only
        rw [most_recent_eq_drop]

/-- A pair of trend rows: one matching the example group, one not. -/
def exRows : List TrendRow :=
  [TrendRow.mk (some "proj") (some "codex") (some "real") (some 9000) (some 11000)
      (some 1) (some 90),
    TrendRow.mk (some "other") (some "codex") (some "real") (some 50) (some 60)
      (some 2) (some 70)]

/-- C5 witness: the baseline-delta theorem applied to a concrete history with
exactly one matching prior row. -/
theorem baseline_delta_correct_witness :
    ∃ bd, baseline_delta exRows "proj" "codex" "real" exSummary
        (score_summary exSummary none 1) = some bd ∧
      bd.sample_size =
        min (exRows.filter fun r => row_matches r "proj" "codex" "real").length 5 := by
  have hsome : ∃ bd, baseline_delta exRows "proj" "codex" "real" exSummary
      (score_summary exSummary none 1) = some bd := by
    unfold baseline_delta
    rw [if_neg (by norm_num [exRows, row_matches])]
    exact ⟨_, rfl⟩
  obtain ⟨bd, hbd⟩ := hsome
  exact ⟨bd, hbd,
    ((baseline_delta_correct exRows "proj" "codex" "real" exSummary
      (score_summary exSummary none 1)).2 bd hbd).1⟩

/-! ### C4 and C10: driver attribution -/

theorem withRanks_length (i : ℕ) (l : List Cand) : (withRanks i l).length = l.length := by
  induction l generalizing i with
  | nil => rfl
  | cons c rest ih => simp [withRanks, ih]

theorem of_mem_withRanks {d : Driver} {l : List Cand} :
    ∀ {i : ℕ}, d ∈ withRanks i l →
      ∃ c ∈ l, d.driver = c.1 ∧ d.estimated_token_impact = max 0 c.2 := by
  induction l with
  | nil => intro i hd; simp [withRanks] at hd
  | cons c rest ih =>
      intro i hd
      rcases List.mem_cons.mp hd with h | h
      · exact ⟨c, List.mem_cons_self c rest, by rw [h], by rw [h]⟩
      · obtain ⟨c', hc', h1, h2⟩ := ih h
        exact ⟨c', List.mem_cons_of_mem c hc', h1, h2⟩

theorem mem_withRanks_of_mem {c : Cand} {l : List Cand} (hc : c ∈ l) :
    ∀ i : ℕ, ∃ d ∈ withRanks i l, d.driver = c.1 ∧ d.estimated_token_impact = max 0 c.2 := by
  induction l with
  | nil => cases hc
  | cons a rest ih =>
      intro i
      rcases List.mem_cons.mp hc with h | h
      · exact ⟨⟨i, c.1, max 0 c.2⟩, by rw [h]; exact List.mem_cons_self _ _, rfl, rfl⟩
      · obtain ⟨d, hd, h1, h2⟩ := ih h (i + 1)
        exact ⟨d, List.mem_cons_of_mem _ hd, h1, h2⟩

theorem withRanks_nonneg {l : List Cand} :
    ∀ {i : ℕ}, ∀ d ∈ withRanks i l, 0 ≤ d.estimated_token_impact := by
  intro i d hd
  obtain ⟨c, _, _, h2⟩ := of_mem_withRanks hd
  rw [h2]
  exact le_max_left 0 c.2

theorem withRanks_pairwise {l : List Cand} (h : l.Pairwise drivers_le) (i : ℕ) :
    (withRanks i l).Pairwise
      (fun a b => b.estimated_token_impact ≤ a.estimated_token_impact) := by
  induction l generalizing i with
  | nil => exact List.Pairwise.nil
  | cons c rest ih =>
      rcases List.pairwise_cons.mp h with ⟨hc, hrest⟩
      refine List.Pairwise.cons ?_ (ih hrest (i + 1))
      intro d hd
      obtain ⟨c', hc', _, h2⟩ := of_mem_withRanks hd
      show d.estimated_token_impact ≤ max 0 c.2
      rw [h2]
      exact max_le_max le_rfl (hc c' hc')

/-- C4: for every usage summary, `build_drivers` returns a non-empty list of at
most five drivers, sorted in descending order of estimated token impact, with
every impact ≥ 0; and were the candidate list empty, the result would be the
single explicit "No dominant driver detected" placeholder, never an empty
list. -/
theorem build_drivers_correct (s : Summary) :
    build_drivers s ≠ [] ∧
    (build_drivers s).length ≤ 5 ∧
    (build_drivers s).Pairwise
      (fun a b => b.estimated_token_impact ≤ a.estimated_token_impact) ∧
    (∀ d ∈ build_drivers s, 0 ≤ d.estimated_token_impact) ∧
    (build_driver_candidates s = [] →
      build_drivers s =
        [{ rank := 1, driver := "No dominant driver detected", estimated_token_impact := 0 }]) := by
  have hlen : (withRanks 1 ((List.insertionSort drivers_le (build_driver_candidates s)).take 5)).length =
      min 5 (build_driver_candidates s).length := by
    rw [withRanks_length, List.length_take, (List.perm_insertionSort drivers_le _).length_eq]
  have hpos : 0 < (build_driver_candidates s).length := by
    show 0 < (session_cand s :: _).length
    simp
  have hne : (withRanks 1 ((List.insertionSort drivers_le (build_driver_candidates s)).take 5)) ≠ [] := by
    rw [← List.length_pos_iff_ne_nil, hlen]
    omega
  have hbd : build_drivers s =
      withRanks 1 ((List.insertionSort drivers_le (build_driver_candidates s)).take 5) := by
    unfold build_drivers
    dsimp only
    rw [if_neg (by simpa [List.isEmpty_iff] using hne)]
  refine ⟨?_, ?_, ?_, ?_, ?_⟩
  · rw [hbd]; exact hne
  · rw [hbd, hlen]; omega
  · rw [hbd]
    exact withRanks_pairwise
      (List.Pairwise.sublist (List.take_sublist 5 _)
        (List.sorted_insertionSort drivers_le (build_driver_candidates s))) 1
  · rw [hbd]; exact withRanks_nonneg
  · intro hempty
    exact absurd hempty (by show session_cand s :: _ ≠ []; simp)

theorem length_takeWhile_le_countP (p : Cand → Bool) (l : List Cand) :
    (l.takeWhile p).length ≤ l.countP p := by
  induction l with
  | nil => simp
  | cons a rest ih =>
      by_cases hp : p a
      · rw [List.takeWhile_cons_of_pos hp, List.countP_cons_of_pos p _ hp]
        simpa using ih
      · rw [List.takeWhile_cons_of_neg hp]
        simp

/-- The "High tokens per message" candidate never has a larger impact than the
"Session size" candidate: its estimated impact is at most `uncached`. -/
theorem tpm_impact_le_unc (s : Summary) (c : Cand) (hc : c ∈ tpm_cand s) :
    c.2 ≤ unc_val s := by
  unfold tpm_cand at hc
  split_ifs at hc with havg
  · rcases List.mem_singleton.mp hc with rfl
    show max 0 ⌊(unc_avg s - 400) * max 1 (((s.messages.getD 0 : ℕ) : ℚ) * 0.2)⌋ ≤ unc_val s
    have hu0 : (0 : ℤ) ≤ unc_val s := Int.natCast_nonneg _
    have huq : (0 : ℚ) ≤ (unc_val s : ℚ) := by exact_mod_cast hu0
    set m : ℕ := s.messages.getD 0 with hm
    have hM1 : (1 : ℚ) ≤ ((max 1 (m : ℤ) : ℤ) : ℚ) := by
      have : (1 : ℤ) ≤ max 1 (m : ℤ) := le_max_left 1 _
      exact_mod_cast this
    have hMpos : (0 : ℚ) < ((max 1 (m : ℤ) : ℤ) : ℚ) := lt_of_lt_of_le one_pos hM1
    have hle : (unc_avg s - 400) * max 1 ((m : ℚ) * 0.2) ≤ (unc_val s : ℚ) := by
      rcases le_or_lt ((m : ℚ) * 0.2) 1 with hk | hk
      · rw [max_eq_left hk, mul_one]
        have hdiv : unc_avg s ≤ (unc_val s : ℚ) := by
          unfold unc_avg
          rw [← hm]
          exact div_le_self huq hM1
        linarith
      · rw [max_eq_right hk.le]
        have hm5 : (5 : ℚ) < (m : ℚ) := by linarith
        have hm1 : (1 : ℤ) ≤ (m : ℤ) := by
          have h5 : (5 : ℕ) < m := by exact_mod_cast hm5
          omega
        have hmax : max 1 (m : ℤ) = (m : ℤ) := max_eq_right hm1
        have hmq : (0 : ℚ) < (m : ℚ) := by linarith
        have havgm : unc_avg s = (unc_val s : ℚ) / (m : ℚ) := by
          unfold unc_avg
          rw [← hm, hmax]
          norm_num
        rw [havgm]
        have hexp : ((unc_val s : ℚ) / (m : ℚ) - 400) * ((m : ℚ) * 0.2) =
            (unc_val s : ℚ) * 0.2 - 80 * (m : ℚ) := by
          field_simp
          ring
        rw [hexp]
        have hmnn : (0 : ℚ) ≤ (m : ℚ) := hmq.le
        linarith
    have hfl : ⌊(unc_avg s - 400) * max 1 (((m : ℕ) : ℚ) * 0.2)⌋ ≤ unc_val s := by
      have := Int.floor_le_floor hle
      rwa [Int.floor_intCast] at this
    exact max_le hu0 hfl
  · cases hc

/-- At most four of the non-"Session size" candidates can have an impact
strictly greater than `uncached`: the tokens-per-message candidate never does. -/
theorem countP_rest_le_four (s : Summary) :
    (cache_cand s ++ tpm_cand s ++ retry_cand s ++ tool_cand s ++
        repeated_cand s).countP (fun b => decide (¬ drivers_le (session_cand s) b)) ≤ 4 := by
  have h1 : ∀ l : List Cand, l.length ≤ 1 →
      l.countP (fun b => decide (¬ drivers_le (session_cand s) b)) ≤ 1 := by
    intro l hl
    exact le_trans (List.countP_le_length _) hl
  have hcache : (cache_cand s).length ≤ 1 := by
    unfold cache_cand
    dsimp only
    split_ifs <;> simp
  have hretry : (retry_cand s).length ≤ 1 := by
    unfold retry_cand
    dsimp only
    split_ifs <;> simp
  have htool : (tool_cand s).length ≤ 1 := by
    unfold tool_cand
    dsimp only
    split_ifs <;> simp
  have hrep : (repeated_cand s).length ≤ 1 := by
    unfold repeated_cand
    dsimp only
    split_ifs <;> simp
  have htpm : (tpm_cand s).countP (fun b => decide (¬ drivers_le (session_cand s) b)) = 0 := by
    rw [List.countP_eq_zero]
    intro c hc
    have := tpm_impact_le_unc s c hc
    simp only [drivers_le, session_cand, decide_not, Bool.not_eq_true', decide_eq_false_iff_not,
      not_not]
    simpa using this
  simp only [List.countP_append]
  have := h1 _ hcache
  have := h1 _ hretry
  have := h1 _ htool
  have := h1 _ hrep
  omega

/-- C10: the "Session size" driver (impact = uncached tokens) survives the
top-5 truncation for every usage summary: it always appears in the output of
`build_drivers`, so the "No dominant driver detected" fallback is
unreachable. -/
theorem build_drivers_session_size (s : Summary) :
    ∃ d ∈ build_drivers s, d.driver = "Session size" ∧
      d.estimated_token_impact = ((s.uncached_tokens.getD s.total_tokens : ℕ) : ℤ) := by
  have hcons : build_driver_candidates s =
      session_cand s ::
        (cache_cand s ++ tpm_cand s ++ retry_cand s ++ tool_cand s ++ repeated_cand s) := rfl
  have hsorted : List.insertionSort drivers_le (build_driver_candidates s) =
      ((List.insertionSort drivers_le
          (cache_cand s ++ tpm_cand s ++ retry_cand s ++ tool_cand s ++
            repeated_cand s)).takeWhile fun b => ¬ drivers_le (session_cand s) b) ++
        session_cand s ::
          ((List.insertionSort drivers_le
            (cache_cand s ++ tpm_cand s ++ retry_cand s ++ tool_cand s ++
              repeated_cand s)).dropWhile fun b => ¬ drivers_le (session_cand s) b) := by
    rw [hcons]
    exact List.insertionSort_cons_eq_take_drop drivers_le _ _
  have hpre : ((List.insertionSort drivers_le
      (cache_cand s ++ tpm_cand s ++ retry_cand s ++ tool_cand s ++
        repeated_cand s)).takeWhile fun b => ¬ drivers_le (session_cand s) b).length ≤ 4 := by
    refine le_trans (length_takeWhile_le_countP _ _) ?_
    rw [(List.perm_insertionSort drivers_le _).countP_eq]
    exact countP_rest_le_four s
  have hmem : session_cand s ∈
      (List.insertionSort drivers_le (build_driver_candidates s)).take 5 := by
    rw [hsorted, List.take_append_eq_append_take]
    apply List.mem_append_right
    obtain ⟨k, hk⟩ : ∃ k, 5 - (((List.insertionSort drivers_le
        (cache_cand s ++ tpm_cand s ++ retry_cand s ++ tool_cand s ++
          repeated_cand s)).takeWhile fun b => ¬ drivers_le (session_cand s) b)).length = k + 1 :=
      ⟨4 - (((List.insertionSort drivers_le
        (cache_cand s ++ tpm_cand s ++ retry_cand s ++ tool_cand s ++
          repeated_cand s)).takeWhile fun b => ¬ drivers_le (session_cand s) b)).length,
        by omega⟩
    rw [hk, List.take_succ_cons]
    exact List.mem_cons_self _ _
  obtain ⟨d, hd, h1, h2⟩ := mem_withRanks_of_mem hmem 1
  have hbd : build_drivers s =
      withRanks 1 ((List.insertionSort drivers_le (build_driver_candidates s)).take 5) := by
    unfold build_drivers
    dsimp only
    rw [if_neg (by simpa [List.isEmpty_iff] using List.ne_nil_of_mem hd)]
  refine ⟨d, by rw [hbd]; exact hd, h1, ?_⟩
  rw [h2]
  show max 0 (unc_val s) = _
  exact max_eq_right (Int.natCast_nonneg _)

/-- C4 witness: the driver-list theorem applied to a concrete summary in which
all six candidate drivers fire. -/
theorem build_drivers_correct_witness :
    build_drivers
        (Summary.mk 100000 none none (some 500) none (some 90000) (some 0) none
          (some 30) (some 3) (some (1/2)) none) ≠ [] ∧
      (build_drivers
        (Summary.mk 100000 none none (some 500) none (some 90000) (some 0) none
          (some 30) (some 3) (some (1/2)) none)).length ≤ 5 :=
  ⟨(build_drivers_correct _).1, (build_drivers_correct _).2.1⟩

end ReviewSession
